import Mathlib

/-!
Verification development for the Linux sandbox interposition layer
(Public/Src/Sandbox/Linux/detours.cpp).

The definitions below are a shallow embedding of the interposed entry
points and the helpers they use.  Code that lives in headers outside the
repository snapshot (bxl_observer.hpp: AccessCheckResult, should_deny,
removeEnvs / ensureEnvs / RemoveLDPreloadFromEnv,
report_intermediate_symlinks, check_fwd_and_report) is modelled from the
specification, and each such definition says so in its doc comment.
-/

namespace Detours

/-- Modelled from the spec: the access-check decision of AccessCheckResult
(bxl_observer.hpp is not under src); the spec orders decisions
monotonically as deny > warn > allow. -/
inductive AccessDecision where
  | allow
  | warn
  | deny
  deriving DecidableEq, Repr

/-- Severity used to combine decisions. -/
def AccessDecision.sev : AccessDecision → Nat
  | .allow => 0
  | .warn => 1
  | .deny => 2

/-- Modelled from the spec: AccessCheckResult.Combine takes the
least-permissive of two decisions under deny > warn > allow. -/
def combine (a b : AccessDecision) : AccessDecision :=
  if b.sev ≤ a.sev then a else b

/-- Event kinds of buildxl::linux::EventType used by detours.cpp. -/
inductive EventType where
  | kOpen
  | kGenericWrite
  | kGenericRead
  | kGenericProbe
  | kCreate
  | kUnlink
  | kLink
  | kReadLink
  | kExec
  | kClone
  | kExit
  deriving DecidableEq, Repr

/-- buildxl::linux::RequiredPathResolution. -/
inductive RequiredPathResolution where
  | kFullyResolve
  | kResolveNoFollow
  deriving DecidableEq, Repr

/-- buildxl::linux::SandboxEvent, restricted to the fields the interposed
entry points set.  Path-shaped constructors default to full resolution. -/
structure SandboxEvent where
  systemCall : String
  eventType : EventType
  pid : Int
  ppid : Int
  error : Int
  srcPath : String
  dstPath : String := ""
  srcFd : Int := -1
  mode : Nat := 0
  pathResolution : RequiredPathResolution := .kFullyResolve
  loggingDisabled : Bool := false
  deriving DecidableEq, Repr

/-- Stamp an errno on an event, as SandboxEvent::SetErrno does. -/
def setErrno (e : Int) (ev : SandboxEvent) : SandboxEvent := { ev with error := e }

/- Flag and errno constants from fcntl.h / errno.h on Linux. -/

def O_WRONLY : Nat := 1
def O_RDWR : Nat := 2
def O_ACCMODE : Nat := 3
def O_CREAT : Nat := 64
def O_TRUNC : Nat := 512
def O_NOFOLLOW : Nat := 131072
def AT_REMOVEDIR : Nat := 512
def CLONE_THREAD : Nat := 65536
def S_IFMT : Nat := 61440
def S_IFDIR : Nat := 16384
def EPERM : Int := 1
def ENOENT : Int := 2

/-- Result of a C comparison used as an integer operand: in C, a
comparison such as x != y evaluates to the int 1 or 0.  This is needed to
translate the source expression oflag & O_NOFOLLOW != 0 with C operator
precedence, where != binds tighter than &. -/
def cNeq (a b : Nat) : Nat := if a ≠ b then 1 else 0

/-- CreateFileOpen from detours.cpp: classifies an open-family call as
create, generic write, or open, from the mode of the normalized path and
the open flags, and sets the no-follow resolution policy from the source
condition oflag & O_NOFOLLOW != 0 (with C precedence, oflag & 1). -/
def CreateFileOpen (pathMode : Nat) (pathStr : String) (oflag : Nat) (pid ppid : Int) :
    SandboxEvent :=
  let pathExists : Bool := pathMode != 0
  let isCreate : Bool := !pathExists && (oflag &&& (O_CREAT ||| O_TRUNC) != 0)
  let hasWriteAccess : Bool :=
    (oflag &&& O_ACCMODE == O_WRONLY) || (oflag &&& O_ACCMODE == O_RDWR)
  let isWrite : Bool := pathExists && ((oflag &&& (O_CREAT ||| O_TRUNC) != 0) && hasWriteAccess)
  { systemCall := "CreateFileOpen"
    eventType :=
      if isCreate then .kCreate else if isWrite then .kGenericWrite else .kOpen
    pid := pid
    ppid := ppid
    error := 0
    srcPath := pathStr
    mode := pathMode
    pathResolution :=
      if oflag &&& cNeq O_NOFOLLOW 0 != 0 then .kResolveNoFollow else .kFullyResolve }

/-- The unlinkat interposer: oflags is O_NOFOLLOW unless AT_REMOVEDIR is
passed, and the no-follow policy is set from the source condition
oflags & O_NOFOLLOW != 0 (with C precedence, oflags & 1). -/
def unlinkat_event (flags : Nat) (path : String) (dirfd : Int) (pid ppid : Int) :
    SandboxEvent :=
  let oflags : Nat := if flags &&& AT_REMOVEDIR != 0 then 0 else O_NOFOLLOW
  let base : SandboxEvent :=
    { systemCall := "unlinkat"
      eventType := .kUnlink
      pid := pid
      ppid := ppid
      error := 0
      srcPath := path
      srcFd := dirfd }
  if oflags &&& cNeq O_NOFOLLOW 0 != 0 then
    { base with pathResolution := .kResolveNoFollow }
  else
    base

/- Process-lifecycle reporting (fork / vfork / clone). -/

/-- A process-start (clone) report as produced by report_child_process. -/
structure CloneReport where
  systemCall : String
  pid : Int
  ppid : Int
  deriving DecidableEq, Repr

/-- report_child_process from detours.cpp: builds a clone event carrying
the given child pid and parent pid and reports it without the dedup
cache. -/
def report_child_process (syscall : String) (childPid parentPid : Int) : CloneReport :=
  { systemCall := syscall, pid := childPid, ppid := parentPid }

/-- Side effects of HandleForkOrCloneReporting in one process. -/
structure ForkSideEffects where
  reports : List CloneReport
  fdTableWasReset : Bool
  deriving DecidableEq, Repr

/-- HandleForkOrCloneReporting from detours.cpp: in the child (fork result
0) reset the fd table and report (pid = self, ppid = parent); otherwise
report (pid = fork result, ppid = self).  selfPid and selfPpid are the
values of getpid() and getppid() in the reporting process. -/
def HandleForkOrCloneReporting (syscall : String) (selfPid selfPpid : Int)
    (forkOrCloneChildPidResult : Int) : ForkSideEffects :=
  if forkOrCloneChildPidResult = 0 then
    { reports := [report_child_process syscall selfPid selfPpid], fdTableWasReset := true }
  else
    { reports := [report_child_process syscall forkOrCloneChildPidResult selfPid],
      fdTableWasReset := false }

/-- The fork (and vfork) interposer reports unconditionally after
forwarding to the real fork. -/
def fork_shim_reports (syscall : String) (selfPid selfPpid : Int) (result : Int) :
    List CloneReport :=
  (HandleForkOrCloneReporting syscall selfPid selfPpid result).reports

/-- The clone interposer reports only when CLONE_THREAD is not set. -/
def clone_shim_reports (syscall : String) (selfPid selfPpid : Int) (flags : Nat)
    (result : Int) : List CloneReport :=
  if flags &&& CLONE_THREAD != 0 then []
  else (HandleForkOrCloneReporting syscall selfPid selfPpid result).reports

/-- All process-lifecycle reports of one fork that created a process with
pid childPid: the parent-side run sees the child pid as the result, the
child-side run sees 0 and has getpid() = childPid, getppid() = parentPid. -/
def forkTotalReports (syscall : String) (parentPid parentPpid childPid : Int) :
    List CloneReport :=
  fork_shim_reports syscall parentPid parentPpid childPid ++
    fork_shim_reports syscall childPid parentPid 0

/-- All process-lifecycle reports of one clone call.  Unlike fork, the
interposed glibc clone wrapper runs its continuation after fwd_clone only
in the caller: the clone child starts executing at fn on the fresh child
stack and never resumes the interposer, so there is no child-side run and
the forkOrCloneChildPidResult = 0 branch of HandleForkOrCloneReporting is
unreachable from clone. -/
def cloneTotalReports (syscall : String) (parentPid parentPpid childPid : Int)
    (flags : Nat) : List CloneReport :=
  clone_shim_reports syscall parentPid parentPpid flags childPid

/- Rename handling (rename / renameat / renameat2). -/

/-- The inputs handle_renameat reads from the observer: the access-check
policy applied by CreateAccess (a function of the event, standing for the
FAM consultation), the mode returned by get_mode for each path, and the
normalized source and destination paths. -/
structure RenameCtx where
  pol : SandboxEvent → AccessDecision
  pathMode : String → Nat
  oldNorm : String
  newNorm : String
  pid : Int
  ppid : Int

/-- std::string::replace(0, old.length(), new) as used to build the
destination path of a descendant. -/
def replaceRoot (p oldRoot newRoot : String) : String :=
  newRoot ++ p.drop oldRoot.length

/-- The source-side (unlink, no-follow) event handle_renameat builds for a
path. -/
def renameSrcEvent (c : RenameCtx) (d : String) : SandboxEvent :=
  { systemCall := "handle_renameat"
    eventType := .kUnlink
    pid := c.pid
    ppid := c.ppid
    error := 0
    srcPath := d
    pathResolution := .kResolveNoFollow }

/-- The destination-side event handle_renameat builds for a descendant,
via CreateFileOpen with flags O_CREAT | O_WRONLY. -/
def renameDstEvent (c : RenameCtx) (d : String) : SandboxEvent :=
  CreateFileOpen (c.pathMode (replaceRoot d c.oldNorm c.newNorm))
    (replaceRoot d c.oldNorm c.newNorm) (O_CREAT ||| O_WRONLY) c.pid c.ppid

/-- Combined decision of the source and destination checks of one
descendant. -/
def pairDecision (c : RenameCtx) (d : String) : AccessDecision :=
  combine (c.pol (renameSrcEvent c d)) (c.pol (renameDstEvent c d))

/-- The directory loop of handle_renameat.  Each iteration overwrites the
check variable with Combine of the current descendant's source and
destination decisions, appends both events, and breaks when that combined
decision is deny.  The first component is the value of the check variable
after the loop (none stands for AccessCheckResult::Invalid, which the loop
never updated). -/
def handle_renameat_dir_loop (c : RenameCtx) :
    List String → Option AccessDecision × List SandboxEvent
  | [] => (none, [])
  | d :: rest =>
      let check := pairDecision c d
      if check = .deny then
        (some check, [renameSrcEvent c d, renameDstEvent c d])
      else
        match rest with
        | [] => (some check, [renameSrcEvent c d, renameDstEvent c d])
        | r :: rs =>
            let t := handle_renameat_dir_loop c (r :: rs)
            (t.1, renameSrcEvent c d :: renameDstEvent c d :: t.2)

/-- handle_renameat from detours.cpp.  oldMode is get_mode of the source,
enumOk whether EnumerateDirectory succeeded, descendants its result.  For
a directory source the loop above runs; otherwise a single source/target
pair is checked.  Returns the final check and the accumulated
events_to_report. -/
def handle_renameat (c : RenameCtx) (oldMode : Nat) (enumOk : Bool)
    (descendants : List String) : Option AccessDecision × List SandboxEvent :=
  if oldMode &&& S_IFMT = S_IFDIR then
    if enumOk then handle_renameat_dir_loop c descendants else (none, [])
  else
    let sourceEvent := renameSrcEvent c c.oldNorm
    let targetEvent :=
      CreateFileOpen (c.pathMode c.newNorm) c.newNorm (O_CREAT ||| O_WRONLY) c.pid c.ppid
    (some (combine (c.pol sourceEvent) (c.pol targetEvent)), [sourceEvent, targetEvent])

/-- Modelled from the spec: BxlObserver::should_deny (bxl_observer.hpp is
not under src) holds exactly when the decision is deny; an invalid check
is not a denial. -/
def should_deny : Option AccessDecision → Bool
  | some .deny => true
  | _ => false

/-- Observable outcome of a renameat / renameat2 interposer call. -/
structure RenameOutcome where
  reportsSent : List SandboxEvent
  invokedRename : Bool
  ret : Int
  errno : Int
  deriving DecidableEq, Repr

/-- The renameat interposer: on deny it sends the last accumulated event
as the single witness and returns the preset (-1, EPERM) result without
forwarding; otherwise it forwards, stamps every accumulated event with the
forwarded call's errno, and sends them all.  realRet and realErrno are the
real rename's result. -/
def renameat_shim (c : RenameCtx) (oldMode : Nat) (enumOk : Bool)
    (descendants : List String) (realRet realErrno : Int) : RenameOutcome :=
  let hr := handle_renameat c oldMode enumOk descendants
  if should_deny hr.1 then
    { reportsSent := hr.2.getLast?.toList, invokedRename := false, ret := -1, errno := EPERM }
  else
    let e := if realRet = -1 then realErrno else 0
    { reportsSent := hr.2.map (setErrno e), invokedRename := true,
      ret := realRet, errno := realErrno }

/-- The renameat2 interposer: identical to renameat except that the flags
argument is forwarded to the real renameat2. -/
def renameat2_shim (c : RenameCtx) (oldMode : Nat) (enumOk : Bool)
    (descendants : List String) (flags : Nat) (realRet realErrno : Int) : RenameOutcome :=
  let hr := handle_renameat c oldMode enumOk descendants
  if should_deny hr.1 then
    { reportsSent := hr.2.getLast?.toList, invokedRename := false, ret := -1, errno := EPERM }
  else
    let e := if realRet = -1 then realErrno else 0
    { reportsSent := hr.2.map (setErrno e), invokedRename := true,
      ret := realRet, errno := realErrno }

/-- The descendants the loop actually processes: everything up to and
including the first descendant whose pair decision is deny. -/
def processedDescendants (c : RenameCtx) : List String → List String
  | [] => []
  | d :: rest =>
      if pairDecision c d = .deny then [d] else d :: processedDescendants c rest

/-- The source/destination event pairs for a list of descendants, in
order. -/
def plannedRenameEvents (c : RenameCtx) : List String → List SandboxEvent
  | [] => []
  | d :: rest => renameSrcEvent c d :: renameDstEvent c d :: plannedRenameEvents c rest

/-- Stated from the spec's words, for comparison with the loop: the
least-permissive per-descendant decision under deny > warn > allow. -/
def leastPermissiveOverDescendants (c : RenameCtx) (ds : List String) : AccessDecision :=
  ds.foldl (fun acc d => combine acc (pairDecision c d)) .allow

/-- Concrete policy for the C3 counterexample: warn on the first
descendant's source path, allow everywhere else. -/
def polC3 : SandboxEvent → AccessDecision :=
  fun e => if e.srcPath = "/old/a" then .warn else .allow

/-- Concrete rename context for the C3 counterexample. -/
def ctxC3 : RenameCtx :=
  { pol := polC3, pathMode := fun _ => 1, oldNorm := "/old", newNorm := "/new",
    pid := 1, ppid := 1 }

/-- Concrete policy for the C2 witness: deny everything. -/
def polC2 : SandboxEvent → AccessDecision := fun _ => .deny

/-- Concrete rename context for the C2 witness. -/
def ctxC2 : RenameCtx :=
  { pol := polC2, pathMode := fun _ => 0, oldNorm := "/a", newNorm := "/b",
    pid := 1, ppid := 1 }

/- realpath interposer. -/

/-- A readlink-kind event attributed to realpath for one traversed
symlink. -/
def realpathReadlinkEvent (pid ppid : Int) (p : String) : SandboxEvent :=
  { systemCall := "realpath"
    eventType := .kReadLink
    pid := pid
    ppid := ppid
    error := 0
    srcPath := p
    pathResolution := .kResolveNoFollow }

/-- Modelled from the spec: BxlObserver::report_intermediate_symlinks is
not under src; the spec says realpath walks the path and emits one
readlink event per actually-symlinked intermediate component, and never
emits a readlink for a component that is not a symlink.  intermediates is
the list of intermediate prefixes of the input path and isSymlink says
which of them are symlinks on the file system. -/
def report_intermediate_symlinks (isSymlink : String → Bool)
    (intermediates : List String) (pid ppid : Int) : List SandboxEvent :=
  (intermediates.filter isSymlink).map (realpathReadlinkEvent pid ppid)

/-- The realpath interposer from detours.cpp: after forwarding, a null
path reports nothing; otherwise a no-follow probe on the input is always
reported; on failure the intermediate symlinks are still reported; on
success they are reported, together with a probe on the returned path,
only when the result differs from the input. -/
def realpath_shim (isSymlink : String → Bool) (intermediates : List String)
    (path : Option String) (result : Option String) (pid ppid : Int) :
    List SandboxEvent :=
  match path with
  | none => []
  | some p =>
      let probeIn : SandboxEvent :=
        { systemCall := "realpath", eventType := .kGenericProbe, pid := pid, ppid := ppid,
          error := 0, srcPath := p, pathResolution := .kResolveNoFollow }
      match result with
      | none => probeIn :: report_intermediate_symlinks isSymlink intermediates pid ppid
      | some r =>
          if r ≠ p then
            probeIn ::
              (report_intermediate_symlinks isSymlink intermediates pid ppid ++
                [{ systemCall := "realpath", eventType := .kGenericProbe, pid := pid,
                   ppid := ppid, error := 0, srcPath := r }])
          else
            [probeIn]

/-- The readlink-kind events among a list of reported events. -/
def readlinkEvents (evs : List SandboxEvent) : List SandboxEvent :=
  evs.filter (fun e => e.eventType == .kReadLink)

/- Environment sanitization across exec. -/

/-- Modelled from the spec: the name of the preload-injection environment
variable. -/
def preloadVar : String := "LD_PRELOAD"

/-- Modelled from the spec: the name of the FAM-path environment
variable. -/
def famVar : String := "__BUILDXL_FAM_PATH"

/-- Modelled from the spec: BxlObserver::removeEnvs (bxl_observer.hpp is
not under src) strips both Observer-injected variables for breakaway
execs.  An environment is modelled as the list of variable names it
defines. -/
def removeEnvs (env : List String) : List String :=
  env.filter (fun v => v != preloadVar && v != famVar)

/-- Modelled from the spec: BxlObserver::ensureEnvs ensures both
Observer-injected variables are present, injecting them when missing. -/
def ensureEnvs (env : List String) : List String :=
  (if preloadVar ∈ env then [] else [preloadVar]) ++
    (if famVar ∈ env then [] else [famVar]) ++ env

/-- Modelled from the spec: BxlObserver::RemoveLDPreloadFromEnv strips the
preload variable only (the tracer keeps the FAM-path variable). -/
def RemoveLDPreloadFromEnv (env : List String) : List String :=
  env.filter (fun v => v != preloadVar)

/-- The environment an exec-family interposer passes to the real exec, per
the three branches of execve in detours.cpp: breakaway targets get
removeEnvs; targets that require the ptrace sandbox get ensureEnvs
followed by RemoveLDPreloadFromEnv inside handle_exec_with_ptrace; all
other targets get ensureEnvs. -/
def exec_env (isBreakaway requiresPtrace : Bool) (env : List String) : List String :=
  if isBreakaway then removeEnvs env
  else if requiresPtrace then RemoveLDPreloadFromEnv (ensureEnvs env)
  else ensureEnvs env

/- FD Table invalidation. -/

/-- State of one process for the FD Table claims: the kernel's actual
descriptor bindings next to the observer's fd → path cache. -/
structure FdState where
  kernel : Int → Option String
  table : Int → Option String

/-- Pointwise update of a descriptor map. -/
def updf (f : Int → Option String) (k : Int) (v : Option String) :
    Int → Option String :=
  fun x => if x = k then v else f x

/-- The descriptor-affecting interposed calls: openFd stands for the
open / openat / creat / fopen-family calls that return a fresh descriptor
(reset via ret_fd or reset_fd_table_entry on the returned stream's
fileno); closeFd for close, fclose(fileno f) and closedir(dirfd d);
dupFd for dup (reset via ret_fd); dup2Fd and dup3Fd reset the target
descriptor before the rebind; lookupFd is the FD Table's lazy lookup. -/
inductive FdOp where
  | openFd (path : String) (retFd : Int)
  | closeFd (fd : Int)
  | dupFd (fd retFd : Int)
  | dup2Fd (oldfd newfd : Int)
  | dup3Fd (oldfd newfd : Int)
  | lookupFd (fd : Int)

/-- Effect of one interposed call on the kernel bindings and on the FD
Table, as implemented by the corresponding interposer in detours.cpp. -/
def fdStep (s : FdState) : FdOp → FdState
  | .openFd p r => { kernel := updf s.kernel r (some p), table := updf s.table r none }
  | .closeFd fd => { kernel := updf s.kernel fd none, table := updf s.table fd none }
  | .dupFd fd r => { kernel := updf s.kernel r (s.kernel fd), table := updf s.table r none }
  | .dup2Fd o n => { kernel := updf s.kernel n (s.kernel o), table := updf s.table n none }
  | .dup3Fd o n => { kernel := updf s.kernel n (s.kernel o), table := updf s.table n none }
  | .lookupFd fd => { kernel := s.kernel, table := updf s.table fd (s.kernel fd) }

/-- Run a sequence of descriptor operations. -/
def fdRun (s : FdState) : List FdOp → FdState
  | [] => s
  | op :: rest => fdRun (fdStep s op) rest

/-- The FD Table is not stale: every cached path agrees with the kernel's
current binding for that descriptor. -/
def FdInv (s : FdState) : Prop :=
  ∀ fd p, s.table fd = some p → s.kernel fd = some p

/-- The initial state of a fresh process: no descriptors cached. -/
def fdInit : FdState :=
  { kernel := fun _ => none, table := fun _ => none }

/- Short-circuits and stream shims. -/

/-- Observable outcome of a single interposed call: the returned value,
the errno left for the caller, the events built and reported, and whether
the real primitive was invoked. -/
structure ShimOutcome where
  ret : Int
  errno : Int
  reports : List SandboxEvent
  forwarded : Bool
  deriving DecidableEq, Repr

/-- Modelled from the spec: the check_fwd_and_report helpers of
BxlObserver (bxl_observer.hpp is not under src): on deny, report the event
as the single witness and return the call's error value with EPERM without
forwarding; otherwise forward, stamp the event with the forwarded call's
errno, and report it. -/
def check_fwd_and_report (decision : AccessDecision) (event : SandboxEvent)
    (errorVal : Int) (realRet realErrno : Int) : ShimOutcome :=
  if decision = .deny then
    { ret := errorVal, errno := EPERM, reports := [event], forwarded := false }
  else
    { ret := realRet, errno := realErrno,
      reports := [setErrno (if realRet = errorVal then realErrno else 0) event],
      forwarded := true }

/-- The readlink interposer (INTERPOSE_SOMETIMES): a non-null path equal
to "/etc/malloc.conf" short-circuits to -1 / ENOENT before any event is
built, any check made, or anything forwarded; every other path builds a
no-follow readlink event and goes through check_fwd_and_report. -/
def readlink_shim (pol : SandboxEvent → AccessDecision) (path : Option String)
    (pid ppid : Int) (realRet realErrno : Int) : ShimOutcome :=
  match path with
  | some p =>
      if p = "/etc/malloc.conf" then
        { ret := -1, errno := ENOENT, reports := [], forwarded := false }
      else
        let event : SandboxEvent :=
          { systemCall := "readlink", eventType := .kReadLink, pid := pid, ppid := ppid,
            error := 0, srcPath := p, pathResolution := .kResolveNoFollow }
        check_fwd_and_report (pol event) event (-1) realRet realErrno
  | none =>
      let event : SandboxEvent :=
        { systemCall := "readlink", eventType := .kReadLink, pid := pid, ppid := ppid,
          error := 0, srcPath := "", pathResolution := .kResolveNoFollow }
      check_fwd_and_report (pol event) event (-1) realRet realErrno

/-- The fread interposer: when fileno(stream) is -1 the call is forwarded
verbatim with no event; otherwise an open-kind fd event is checked and
forwarded. -/
def fread_shim (streamFd : Int) (pol : SandboxEvent → AccessDecision)
    (pid ppid realRet realErrno : Int) : ShimOutcome :=
  if streamFd = -1 then
    { ret := realRet, errno := realErrno, reports := [], forwarded := true }
  else
    let event : SandboxEvent :=
      { systemCall := "fread", eventType := .kOpen, pid := pid, ppid := ppid,
        error := 0, srcPath := "", srcFd := streamFd }
    check_fwd_and_report (pol event) event 0 realRet realErrno

/-- The fwrite interposer: same shape as fread with a generic-write
event. -/
def fwrite_shim (streamFd : Int) (pol : SandboxEvent → AccessDecision)
    (pid ppid realRet realErrno : Int) : ShimOutcome :=
  if streamFd = -1 then
    { ret := realRet, errno := realErrno, reports := [], forwarded := true }
  else
    let event : SandboxEvent :=
      { systemCall := "fwrite", eventType := .kGenericWrite, pid := pid, ppid := ppid,
        error := 0, srcPath := "", srcFd := streamFd }
    check_fwd_and_report (pol event) event 0 realRet realErrno

/-- The fputc interposer. -/
def fputc_shim (streamFd : Int) (pol : SandboxEvent → AccessDecision)
    (pid ppid realRet realErrno : Int) : ShimOutcome :=
  if streamFd = -1 then
    { ret := realRet, errno := realErrno, reports := [], forwarded := true }
  else
    let event : SandboxEvent :=
      { systemCall := "fputc", eventType := .kGenericWrite, pid := pid, ppid := ppid,
        error := 0, srcPath := "", srcFd := streamFd }
    check_fwd_and_report (pol event) event (-1) realRet realErrno

/-- The fputs interposer. -/
def fputs_shim (streamFd : Int) (pol : SandboxEvent → AccessDecision)
    (pid ppid realRet realErrno : Int) : ShimOutcome :=
  if streamFd = -1 then
    { ret := realRet, errno := realErrno, reports := [], forwarded := true }
  else
    let event : SandboxEvent :=
      { systemCall := "fputs", eventType := .kGenericWrite, pid := pid, ppid := ppid,
        error := 0, srcPath := "", srcFd := streamFd }
    check_fwd_and_report (pol event) event (-1) realRet realErrno

/-- The putc interposer (forward-call logging disabled on its event). -/
def putc_shim (streamFd : Int) (pol : SandboxEvent → AccessDecision)
    (pid ppid realRet realErrno : Int) : ShimOutcome :=
  if streamFd = -1 then
    { ret := realRet, errno := realErrno, reports := [], forwarded := true }
  else
    let event : SandboxEvent :=
      { systemCall := "putc", eventType := .kGenericWrite, pid := pid, ppid := ppid,
        error := 0, srcPath := "", srcFd := streamFd, loggingDisabled := true }
    check_fwd_and_report (pol event) event (-1) realRet realErrno

/-- The vfprintf interposer: when fileno(f) is -1 the call is forwarded
verbatim with no event; otherwise a generic-write event is created and the
call is forwarded unconditionally (vfprintf is never denied). -/
def vfprintf_shim (streamFd : Int) (pid ppid realRet realErrno : Int) : ShimOutcome :=
  if streamFd = -1 then
    { ret := realRet, errno := realErrno, reports := [], forwarded := true }
  else
    let event : SandboxEvent :=
      { systemCall := "vfprintf", eventType := .kGenericWrite, pid := pid, ppid := ppid,
        error := 0, srcPath := "", srcFd := streamFd }
    { ret := realRet, errno := realErrno, reports := [event], forwarded := true }

end Detours

namespace Detours

/-- Helper: the directory loop of handle_renameat returns a nonempty event
list on a nonempty descendant list. -/
theorem dir_loop_snd_ne_nil (c : RenameCtx) (d : String) (rest : List String) :
    (handle_renameat_dir_loop c (d :: rest)).2 ≠ [] := by
  by_cases hd : pairDecision c d = .deny
  · cases rest <;> simp [handle_renameat_dir_loop, hd]
  · cases rest with
    | nil => simp [handle_renameat_dir_loop, hd]
    | cons r rs => simp [handle_renameat_dir_loop, hd]

/-- Helper: the directory loop of handle_renameat leaves the check
invalid on an empty descendant list. -/
theorem dir_loop_nil (c : RenameCtx) : handle_renameat_dir_loop c [] = (none, []) := rfl

/-- Helper: a denying handle_renameat has accumulated at least one
event. -/
theorem handle_renameat_deny_ne_nil (c : RenameCtx) (oldMode : Nat) (enumOk : Bool)
    (ds : List String) (h : should_deny (handle_renameat c oldMode enumOk ds).1 = true) :
    (handle_renameat c oldMode enumOk ds).2 ≠ [] := by
  unfold handle_renameat at h ⊢
  by_cases hdir : oldMode &&& S_IFMT = S_IFDIR
  · simp only [hdir, if_true] at h ⊢
    by_cases he : enumOk
    · simp only [he, if_true] at h ⊢
      cases ds with
      | nil => simp [dir_loop_nil, should_deny] at h
      | cons d rest => exact dir_loop_snd_ne_nil c d rest
    · simp [he, should_deny] at h
  · simp [hdir]

/-- Helper: the event list produced by the directory loop is exactly one
source/destination pair per processed descendant, in order. -/
theorem loop_events_eq (c : RenameCtx) : ∀ ds : List String,
    (handle_renameat_dir_loop c ds).2 = plannedRenameEvents c (processedDescendants c ds)
  | [] => by simp [handle_renameat_dir_loop, processedDescendants, plannedRenameEvents]
  | d :: rest => by
      by_cases hd : pairDecision c d = .deny
      · cases rest <;>
          simp [handle_renameat_dir_loop, processedDescendants, plannedRenameEvents, hd]
      · cases rest with
        | nil =>
            simp [handle_renameat_dir_loop, processedDescendants, plannedRenameEvents, hd]
        | cons r rs =>
            have ih := loop_events_eq c (r :: rs)
            simp [handle_renameat_dir_loop, processedDescendants, plannedRenameEvents, hd, ih]

/-- Helper: the directory loop's final check is deny exactly when some
descendant's pair decision is deny. -/
theorem loop_deny_iff (c : RenameCtx) : ∀ ds : List String,
    ((handle_renameat_dir_loop c ds).1 = some .deny ↔ ∃ d ∈ ds, pairDecision c d = .deny)
  | [] => by simp [handle_renameat_dir_loop]
  | d :: rest => by
      by_cases hd : pairDecision c d = .deny
      · cases rest <;> simp [handle_renameat_dir_loop, hd]
      · cases rest with
        | nil => simp [handle_renameat_dir_loop, hd]
        | cons r rs =>
            have ih := loop_deny_iff c (r :: rs)
            simp [handle_renameat_dir_loop, hd, ih]

/-- Helper: when no descendant denies, the loop's final check is the last
descendant's pair decision (the loop overwrites the check variable each
iteration). -/
theorem loop_last_decision (c : RenameCtx) : ∀ (ds : List String) (dl : String),
    ds.getLast? = some dl → (∀ d ∈ ds, pairDecision c d ≠ .deny) →
    (handle_renameat_dir_loop c ds).1 = some (pairDecision c dl)
  | [], dl => by simp
  | [d], dl => by
      intro hlast hnd
      simp only [List.getLast?_singleton, Option.some.injEq] at hlast
      have hd := hnd d (by simp)
      simp [handle_renameat_dir_loop, hd, hlast]
  | d :: r :: rs, dl => by
      intro hlast hnd
      have hd := hnd d (by simp)
      have ih := loop_last_decision c (r :: rs) dl
        (by simpa using hlast) (fun x hx => hnd x (by simp [hx]))
      simp [handle_renameat_dir_loop, hd, ih]

/-- Claim C4: the open-family event is create iff the normalized path does
not exist and O_CREAT or O_TRUNC is set; generic write iff the path exists,
O_CREAT or O_TRUNC is set, and the access mode is O_WRONLY or O_RDWR; and
open otherwise. -/
theorem C4_open_classification (pathMode oflag : Nat) (p : String) (pid ppid : Int) :
    ((CreateFileOpen pathMode p oflag pid ppid).eventType = .kCreate ↔
      (pathMode = 0 ∧ oflag &&& (O_CREAT ||| O_TRUNC) ≠ 0))
  ∧ ((CreateFileOpen pathMode p oflag pid ppid).eventType = .kGenericWrite ↔
      (pathMode ≠ 0 ∧ oflag &&& (O_CREAT ||| O_TRUNC) ≠ 0 ∧
        (oflag &&& O_ACCMODE = O_WRONLY ∨ oflag &&& O_ACCMODE = O_RDWR)))
  ∧ ((CreateFileOpen pathMode p oflag pid ppid).eventType = .kOpen ↔
      ¬ ((pathMode = 0 ∧ oflag &&& (O_CREAT ||| O_TRUNC) ≠ 0) ∨
         (pathMode ≠ 0 ∧ oflag &&& (O_CREAT ||| O_TRUNC) ≠ 0 ∧
           (oflag &&& O_ACCMODE = O_WRONLY ∨ oflag &&& O_ACCMODE = O_RDWR)))) := by
  by_cases h1 : pathMode = 0 <;>
    by_cases h2 : oflag &&& (O_CREAT ||| O_TRUNC) = 0 <;>
      by_cases h3 : oflag &&& O_ACCMODE = O_WRONLY <;>
        by_cases h4 : oflag &&& O_ACCMODE = O_RDWR <;>
          simp [CreateFileOpen, h1, h2, h3, h4]

/-- Claim C5: at the call sites testing oflag & O_NOFOLLOW != 0, C operator
precedence makes the condition oflag & 1, so the open-family event builder
sets no-follow resolution iff the lowest bit of the flags word (the
O_WRONLY bit) is set, and the unlinkat interposer never sets it (both 0 and
O_NOFOLLOW have a clear lowest bit). -/
theorem C5_nofollow_precedence (pathMode oflag flags : Nat) (p q : String)
    (dirfd pid ppid : Int) :
    ((CreateFileOpen pathMode p oflag pid ppid).pathResolution = .kResolveNoFollow ↔
      oflag &&& 1 ≠ 0)
  ∧ (oflag &&& 1 = oflag &&& O_WRONLY)
  ∧ ((unlinkat_event flags q dirfd pid ppid).pathResolution = .kFullyResolve) := by
  refine ⟨?_, rfl, ?_⟩
  · have hc : cNeq O_NOFOLLOW 0 = 1 := by decide
    by_cases h : oflag &&& 1 = 0 <;> simp [CreateFileOpen, hc, h]
  · have hb : (131072 : Nat) &&& cNeq 131072 0 = 0 := by decide
    by_cases h : flags &&& AT_REMOVEDIR = 0 <;>
      simp [unlinkat_event, h, O_NOFOLLOW, hb]

/-- Counterexample to claim C1: a process-creating clone call (flags 0,
child pid 102) emits exactly one process-start report, the parent-side
one, not the two the claim asserts: the clone child starts at fn and
never runs the interposer continuation, so no child-side report exists. -/
theorem C1_counterexample :
    cloneTotalReports "clone" 100 99 102 0 = [report_child_process "clone" 102 100]
  ∧ (cloneTotalReports "clone" 100 99 102 0).length ≠ 2 := by
  refine ⟨?_, ?_⟩ <;> decide

/-- Amended claim C1: a fork or vfork call that creates a new process
(childPid is the nonzero result seen by the parent) emits exactly two
process-start reports, one from the parent carrying the child's pid with
the caller's pid as ppid, and one from the child carrying its own pid; a
clone call that creates a new process emits exactly one process-start
report, the parent-side one carrying the child's pid with the caller's
pid as ppid; a clone call with CLONE_THREAD set emits no
process-lifecycle report. -/
theorem C1_amended_fork_clone_reports (sc : String) (parentPid parentPpid childPid : Int)
    (flags : Nat) (hchild : childPid ≠ 0) (hthread : flags &&& CLONE_THREAD = 0) :
    forkTotalReports sc parentPid parentPpid childPid =
      [report_child_process sc childPid parentPid, report_child_process sc childPid parentPid]
  ∧ (forkTotalReports sc parentPid parentPpid childPid).length = 2
  ∧ cloneTotalReports sc parentPid parentPpid childPid flags =
      [report_child_process sc childPid parentPid]
  ∧ (cloneTotalReports sc parentPid parentPpid childPid flags).length = 1
  ∧ (∀ flags2 : Nat, flags2 &&& CLONE_THREAD ≠ 0 →
      ∀ r selfPid selfPpid : Int, clone_shim_reports sc selfPid selfPpid flags2 r = []) := by
  refine ⟨?_, ?_, ?_, ?_, ?_⟩
  · simp [forkTotalReports, fork_shim_reports, HandleForkOrCloneReporting, hchild]
  · simp [forkTotalReports, fork_shim_reports, HandleForkOrCloneReporting, hchild]
  · simp [cloneTotalReports, clone_shim_reports, HandleForkOrCloneReporting, hchild, hthread]
  · simp [cloneTotalReports, clone_shim_reports, HandleForkOrCloneReporting, hchild, hthread]
  · intro flags2 h2 r selfPid selfPpid
    simp [clone_shim_reports, h2]

/-- Witness for the amended C1 at concrete pids (parent 100, child 102,
clone flags 0). -/
theorem C1_amended_fork_clone_reports_witness :
    (102 : Int) ≠ 0 ∧ (0 : Nat) &&& CLONE_THREAD = 0 ∧
      forkTotalReports "fork" 100 99 102 =
        [report_child_process "fork" 102 100, report_child_process "fork" 102 100] ∧
      cloneTotalReports "clone" 100 99 102 0 = [report_child_process "clone" 102 100] :=
  ⟨by decide, by decide,
    (C1_amended_fork_clone_reports "fork" 100 99 102 0 (by decide) (by decide)).1,
    (C1_amended_fork_clone_reports "clone" 100 99 102 0 (by decide) (by decide)).2.2.1⟩

/-- Claim C2: when the combined access-check decision of a renameat or
renameat2 call is deny, exactly one report is sent, it is the last event
in the accumulated list, the underlying rename is not invoked, and the
call returns -1 with errno EPERM. -/
theorem C2_rename_deny_single_witness (c : RenameCtx) (oldMode : Nat) (enumOk : Bool)
    (ds : List String) (flags : Nat) (realRet realErrno : Int)
    (h : should_deny (handle_renameat c oldMode enumOk ds).1 = true) :
    ((renameat_shim c oldMode enumOk ds realRet realErrno).reportsSent.length = 1
      ∧ (renameat_shim c oldMode enumOk ds realRet realErrno).reportsSent.head? =
          (handle_renameat c oldMode enumOk ds).2.getLast?
      ∧ (renameat_shim c oldMode enumOk ds realRet realErrno).invokedRename = false
      ∧ (renameat_shim c oldMode enumOk ds realRet realErrno).ret = -1
      ∧ (renameat_shim c oldMode enumOk ds realRet realErrno).errno = EPERM)
  ∧ ((renameat2_shim c oldMode enumOk ds flags realRet realErrno).reportsSent.length = 1
      ∧ (renameat2_shim c oldMode enumOk ds flags realRet realErrno).reportsSent.head? =
          (handle_renameat c oldMode enumOk ds).2.getLast?
      ∧ (renameat2_shim c oldMode enumOk ds flags realRet realErrno).invokedRename = false
      ∧ (renameat2_shim c oldMode enumOk ds flags realRet realErrno).ret = -1
      ∧ (renameat2_shim c oldMode enumOk ds flags realRet realErrno).errno = EPERM) := by
  have hne := handle_renameat_deny_ne_nil c oldMode enumOk ds h
  obtain ⟨e, he⟩ := Option.isSome_iff_exists.mp (List.getLast?_isSome.mpr hne)
  refine ⟨⟨?_, ?_, ?_, ?_, ?_⟩, ⟨?_, ?_, ?_, ?_, ?_⟩⟩ <;>
    simp [renameat_shim, renameat2_shim, h, he]

/-- Witness for C2: a policy that denies everything, applied to a
non-directory rename from /a to /b. -/
theorem C2_rename_deny_single_witness_witness :
    should_deny (handle_renameat ctxC2 0 true []).1 = true
  ∧ (renameat_shim ctxC2 0 true [] 0 0).reportsSent.length = 1
  ∧ (renameat_shim ctxC2 0 true [] 0 0).invokedRename = false
  ∧ (renameat_shim ctxC2 0 true [] 0 0).ret = -1
  ∧ (renameat_shim ctxC2 0 true [] 0 0).errno = EPERM :=
  ⟨by decide,
    (C2_rename_deny_single_witness ctxC2 0 true [] 0 0 0 (by decide)).1.1,
    (C2_rename_deny_single_witness ctxC2 0 true [] 0 0 0 (by decide)).1.2.2.1,
    (C2_rename_deny_single_witness ctxC2 0 true [] 0 0 0 (by decide)).1.2.2.2.1,
    (C2_rename_deny_single_witness ctxC2 0 true [] 0 0 0 (by decide)).1.2.2.2.2⟩

/-- Counterexample to claim C3: with a policy that warns on the first
descendant of the enumerated directory and allows the second, the loop's
combined decision is allow, while the least-permissive per-descendant
decision is warn: the check variable is overwritten on every iteration,
so earlier non-deny decisions are discarded. -/
theorem C3_counterexample :
    (handle_renameat_dir_loop ctxC3 ["/old/a", "/old/b"]).1 = some .allow
  ∧ leastPermissiveOverDescendants ctxC3 ["/old/a", "/old/b"] = .warn
  ∧ (handle_renameat_dir_loop ctxC3 ["/old/a", "/old/b"]).1 ≠
      some (leastPermissiveOverDescendants ctxC3 ["/old/a", "/old/b"]) := by
  refine ⟨?_, ?_, ?_⟩ <;> decide

/-- Amended claim C3: the rename-over-directory loop produces, for each
processed descendant in order, an unlink-kind check on the source path and
a create/write-kind check on the destination path, and stops right after
the first descendant whose pair decision is deny; the combined decision is
deny exactly when some descendant's pair decision is deny, and when no
descendant denies it equals the pair decision of the last descendant only,
not the least-permissive decision over all descendants. -/
theorem C3_amended_rename_enumeration (c : RenameCtx) (ds : List String) (dl : String) :
    ((handle_renameat_dir_loop c ds).2 = plannedRenameEvents c (processedDescendants c ds))
  ∧ ((handle_renameat_dir_loop c ds).1 = some .deny ↔ ∃ d ∈ ds, pairDecision c d = .deny)
  ∧ (ds.getLast? = some dl → (∀ d ∈ ds, pairDecision c d ≠ .deny) →
      (handle_renameat_dir_loop c ds).1 = some (pairDecision c dl)) :=
  ⟨loop_events_eq c ds, loop_deny_iff c ds,
    fun h1 h2 => loop_last_decision c ds dl h1 h2⟩

/-- Witness for the amended C3 on the counterexample's concrete
directory. -/
theorem C3_amended_rename_enumeration_witness :
    ((handle_renameat_dir_loop ctxC3 ["/old/a", "/old/b"]).2 =
        plannedRenameEvents ctxC3 (processedDescendants ctxC3 ["/old/a", "/old/b"]))
  ∧ (handle_renameat_dir_loop ctxC3 ["/old/a", "/old/b"]).1 =
      some (pairDecision ctxC3 "/old/b") :=
  ⟨(C3_amended_rename_enumeration ctxC3 ["/old/a", "/old/b"] "/old/b").1,
    (C3_amended_rename_enumeration ctxC3 ["/old/a", "/old/b"] "/old/b").2.2
      (by decide) (by decide)⟩

/-- Helper: every event produced by report_intermediate_symlinks is a
readlink event, so filtering for readlink keeps them all. -/
theorem filter_readlink_map (pid ppid : Int) (l : List String) :
    List.filter (fun e => e.eventType == EventType.kReadLink)
        (List.map (realpathReadlinkEvent pid ppid) l) =
      List.map (realpathReadlinkEvent pid ppid) l := by
  induction l with
  | nil => rfl
  | cons a t ih => simp [List.filter_cons, realpathReadlinkEvent, ih]

/-- Helper: every event reported by report_intermediate_symlinks is on an
actually-symlinked component. -/
theorem mem_report_intermediate_symlinks (isSymlink : String → Bool)
    (intermediates : List String) (pid ppid : Int) (e : SandboxEvent)
    (he : e ∈ report_intermediate_symlinks isSymlink intermediates pid ppid) :
    isSymlink e.srcPath = true := by
  simp only [report_intermediate_symlinks, List.mem_map] at he
  obtain ⟨x, hx, hxe⟩ := he
  rw [← hxe]
  simpa [realpathReadlinkEvent] using (List.mem_filter.mp hx).2

/-- Claim C6: an interposed realpath call emits one readlink event per
actually-symlinked intermediate component of its input, emits zero
readlink events when the returned canonical path equals the input, and
never emits a readlink event for a component that is not a symlink.  The
hypothesis states the file-system consistency of the forwarded realpath:
if its output equals its input, no intermediate component was a symlink
(the shim relies on this when it skips the simulation). -/
theorem C6_realpath_readlink_events (isSymlink : String → Bool)
    (intermediates : List String) (p : String) (result : Option String) (pid ppid : Int)
    (hfs : result = some p → (intermediates.filter isSymlink).length = 0) :
    (readlinkEvents (realpath_shim isSymlink intermediates (some p) result pid ppid)).length
        = (intermediates.filter isSymlink).length
  ∧ (result = some p →
      readlinkEvents (realpath_shim isSymlink intermediates (some p) result pid ppid) = [])
  ∧ (∀ e ∈ realpath_shim isSymlink intermediates (some p) result pid ppid,
      e.eventType = .kReadLink → isSymlink e.srcPath = true) := by
  refine ⟨?_, ?_, ?_⟩
  · cases result with
    | none =>
        simp [realpath_shim, report_intermediate_symlinks, readlinkEvents,
          List.filter_cons, filter_readlink_map]
    | some r =>
        by_cases hr : r = p
        · have h0 := hfs (by rw [hr])
          simp [realpath_shim, hr, readlinkEvents, List.filter_cons, h0]
        · simp [realpath_shim, hr, report_intermediate_symlinks, readlinkEvents,
            List.filter_cons, List.filter_append, filter_readlink_map]
  · intro hres
    cases result with
    | none => simp at hres
    | some r =>
        have hr : r = p := by simpa using hres
        simp [realpath_shim, hr, readlinkEvents, List.filter_cons]
  · intro e he het
    cases result with
    | none =>
        simp only [realpath_shim] at he
        rcases List.mem_cons.mp he with he1 | he2
        · rw [he1] at het; simp at het
        · exact mem_report_intermediate_symlinks isSymlink intermediates pid ppid e he2
    | some r =>
        simp only [realpath_shim] at he
        by_cases hr : r = p
        · rw [if_neg (fun hc => hc hr)] at he
          rw [List.mem_singleton.mp he] at het
          simp at het
        · rw [if_pos hr] at he
          rcases List.mem_cons.mp he with he1 | he2
          · rw [he1] at het; simp at het
          · rcases List.mem_append.mp he2 with he3 | he4
            · exact mem_report_intermediate_symlinks isSymlink intermediates pid ppid e he3
            · rw [List.mem_singleton.mp he4] at het
              simp at het

/-- Concrete symlink predicate for the C6 witness: only /a is a
symlink. -/
def symC6 : String → Bool := fun s => s == "/a"

/-- Witness for C6: input /a/b with intermediates /a and /a/b of which /a
is a symlink, result /r different from the input. -/
theorem C6_realpath_readlink_events_witness :
    ((some "/r" : Option String) = some "/a/b" →
        ((["/a", "/a/b"].filter symC6).length = 0))
  ∧ (readlinkEvents
        (realpath_shim symC6 ["/a", "/a/b"] (some "/a/b") (some "/r") 1 1)).length
      = (["/a", "/a/b"].filter symC6).length :=
  ⟨fun h => absurd h (by decide),
    (C6_realpath_readlink_events symC6 ["/a", "/a/b"] "/a/b" (some "/r") 1 1
      (fun h => absurd h (by decide))).1⟩

/-- Counterexample to claim C7: a non-breakaway target that requires the
ptrace fallback (a statically linked executable) is handed an environment
from which the preload variable has been removed, even though the claim
requires both Observer variables to be present for every non-breakaway
target. -/
theorem C7_counterexample :
    preloadVar ∉ exec_env false true [preloadVar, famVar]
  ∧ famVar ∈ exec_env false true [preloadVar, famVar] := by
  constructor <;> decide

/-- Amended claim C7: a breakaway target's environment contains neither
Observer variable; a non-breakaway target that does not require the ptrace
fallback gets both (injected if missing); a non-breakaway target that
requires the ptrace fallback keeps the FAM-path variable but has the
preload variable removed. -/
theorem C7_amended_exec_env (env : List String) (rp : Bool) :
    (preloadVar ∉ exec_env true rp env ∧ famVar ∉ exec_env true rp env)
  ∧ (preloadVar ∈ exec_env false false env ∧ famVar ∈ exec_env false false env)
  ∧ (famVar ∈ exec_env false true env ∧ preloadVar ∉ exec_env false true env) := by
  have hpf : preloadVar ≠ famVar := by decide
  refine ⟨⟨?_, ?_⟩, ⟨?_, ?_⟩, ⟨?_, ?_⟩⟩
  · simp [exec_env, removeEnvs, List.mem_filter]
  · simp [exec_env, removeEnvs, List.mem_filter, hpf.symm]
  · by_cases hp : preloadVar ∈ env <;> by_cases hf : famVar ∈ env <;>
      simp [exec_env, ensureEnvs, hp, hf]
  · by_cases hp : preloadVar ∈ env <;> by_cases hf : famVar ∈ env <;>
      simp [exec_env, ensureEnvs, hp, hf]
  · have hmem : famVar ∈ ensureEnvs env := by
      by_cases hp : preloadVar ∈ env <;> by_cases hf : famVar ∈ env <;>
        simp [ensureEnvs, hp, hf]
    simp [exec_env, RemoveLDPreloadFromEnv, List.mem_filter, hmem, hpf.symm]
  · simp [exec_env, RemoveLDPreloadFromEnv, List.mem_filter]

/-- Helper: one interposed descriptor operation preserves the no-stale
invariant of the FD Table. -/
theorem fdStep_preserves (s : FdState) (op : FdOp) (h : FdInv s) : FdInv (fdStep s op) := by
  cases op with
  | openFd p r =>
      intro fd q hq
      simp only [fdStep, updf] at hq ⊢
      by_cases hfd : fd = r
      · rw [if_pos hfd] at hq; exact absurd hq (by simp)
      · rw [if_neg hfd] at hq ⊢; exact h fd q hq
  | closeFd fd0 =>
      intro fd q hq
      simp only [fdStep, updf] at hq ⊢
      by_cases hfd : fd = fd0
      · rw [if_pos hfd] at hq; exact absurd hq (by simp)
      · rw [if_neg hfd] at hq ⊢; exact h fd q hq
  | dupFd fd0 r =>
      intro fd q hq
      simp only [fdStep, updf] at hq ⊢
      by_cases hfd : fd = r
      · rw [if_pos hfd] at hq; exact absurd hq (by simp)
      · rw [if_neg hfd] at hq ⊢; exact h fd q hq
  | dup2Fd o n =>
      intro fd q hq
      simp only [fdStep, updf] at hq ⊢
      by_cases hfd : fd = n
      · rw [if_pos hfd] at hq; exact absurd hq (by simp)
      · rw [if_neg hfd] at hq ⊢; exact h fd q hq
  | dup3Fd o n =>
      intro fd q hq
      simp only [fdStep, updf] at hq ⊢
      by_cases hfd : fd = n
      · rw [if_pos hfd] at hq; exact absurd hq (by simp)
      · rw [if_neg hfd] at hq ⊢; exact h fd q hq
  | lookupFd fd0 =>
      intro fd q hq
      simp only [fdStep, updf] at hq
      by_cases hfd : fd = fd0
      · rw [if_pos hfd] at hq
        rw [hfd]
        exact hq
      · rw [if_neg hfd] at hq
        exact h fd q hq

/-- Helper: running any sequence of interposed descriptor operations
preserves the no-stale invariant. -/
theorem fdRun_preserves (ops : List FdOp) : ∀ s : FdState, FdInv s → FdInv (fdRun s ops) := by
  induction ops with
  | nil => intro s h; exact h
  | cons op rest ih => intro s h; exact ih (fdStep s op) (fdStep_preserves s op h)

/-- Claim C8: close, fclose and closedir reset the closed descriptor's FD
Table entry; dup2 and dup3 reset the target descriptor's entry before the
rebind; the open-family, fopen-family and dup calls reset the entry of the
descriptor they return; consequently the FD Table never returns a stale
path for a descriptor that has been rebound or closed (the no-stale
invariant holds after any sequence of interposed descriptor
operations). -/
theorem C8_fd_table_invalidation (s : FdState) (ops : List FdOp) (h : FdInv s) :
    FdInv (fdRun s ops)
  ∧ (∀ p r, (fdStep s (.openFd p r)).table r = none)
  ∧ (∀ fd, (fdStep s (.closeFd fd)).table fd = none)
  ∧ (∀ fd r, (fdStep s (.dupFd fd r)).table r = none)
  ∧ (∀ o n, (fdStep s (.dup2Fd o n)).table n = none)
  ∧ (∀ o n, (fdStep s (.dup3Fd o n)).table n = none) := by
  refine ⟨fdRun_preserves ops s h, ?_, ?_, ?_, ?_, ?_⟩ <;>
    intros <;> simp [fdStep, updf]

/-- Witness for C8: a fresh process state run through open, lookup, dup2
and close. -/
theorem C8_fd_table_invalidation_witness :
    FdInv fdInit
  ∧ FdInv (fdRun fdInit
      [FdOp.openFd "/p" 3, FdOp.lookupFd 3, FdOp.dup2Fd 3 2, FdOp.closeFd 3]) :=
  have h0 : FdInv fdInit := fun fd p hp => by simp [fdInit] at hp
  ⟨h0, (C8_fd_table_invalidation fdInit
    [FdOp.openFd "/p" 3, FdOp.lookupFd 3, FdOp.dup2Fd 3 2, FdOp.closeFd 3] h0).1⟩

/-- Claim C9: an interposed readlink on exactly "/etc/malloc.conf"
returns -1 with errno ENOENT without invoking the real readlink, building
an event, or sending a report. -/
theorem C9_readlink_malloc_conf_short_circuit (pol : SandboxEvent → AccessDecision)
    (pid ppid realRet realErrno : Int) :
    readlink_shim pol (some "/etc/malloc.conf") pid ppid realRet realErrno =
      { ret := -1, errno := ENOENT, reports := [], forwarded := false } := by
  simp [readlink_shim]

/-- Claim C10: fread, fwrite, fputc, fputs, putc and vfprintf forward the
call unchanged, return the real result and errno verbatim, and construct,
check and report nothing when the stream has no file descriptor (fileno
returned -1). -/
theorem C10_stream_without_fd_forwards_verbatim (pol : SandboxEvent → AccessDecision)
    (pid ppid realRet realErrno : Int) :
    fread_shim (-1) pol pid ppid realRet realErrno =
        { ret := realRet, errno := realErrno, reports := [], forwarded := true }
  ∧ fwrite_shim (-1) pol pid ppid realRet realErrno =
        { ret := realRet, errno := realErrno, reports := [], forwarded := true }
  ∧ fputc_shim (-1) pol pid ppid realRet realErrno =
        { ret := realRet, errno := realErrno, reports := [], forwarded := true }
  ∧ fputs_shim (-1) pol pid ppid realRet realErrno =
        { ret := realRet, errno := realErrno, reports := [], forwarded := true }
  ∧ putc_shim (-1) pol pid ppid realRet realErrno =
        { ret := realRet, errno := realErrno, reports := [], forwarded := true }
  ∧ vfprintf_shim (-1) pid ppid realRet realErrno =
        { ret := realRet, errno := realErrno, reports := [], forwarded := true } := by
  refine ⟨?_, ?_, ?_, ?_, ?_, ?_⟩ <;>
    simp [fread_shim, fwrite_shim, fputc_shim, fputs_shim, putc_shim, vfprintf_shim]

end Detours
